import Mathlib

/-!
Verification of the Wrike API client core (`py_wrike_v4/wrike.py`):
the lazy reference-data cache, the ID-format lookup, the project-status
extractor and the timelog query, shallowly embedded over a JSON value type
with Python dictionary and truthiness semantics.
-/

/-- A JSON value as decoded by the client, matching the Python object model
the source manipulates: `None`, booleans, integers, strings, lists, and
dicts with string keys. -/
inductive JVal where
  | null : JVal
  | bool : Bool → JVal
  | num : Int → JVal
  | str : String → JVal
  | arr : List JVal → JVal
  | obj : List (String × JVal) → JVal
  deriving Repr

mutual

/-- Decidable equality on JSON values (hand-rolled: the nested inductive
defeats the automatic derivation). -/
def JVal.decEq : (a b : JVal) → Decidable (a = b)
  | .null, .null => .isTrue rfl
  | .bool x, .bool y =>
    if h : x = y then .isTrue (by rw [h])
    else .isFalse (by intro hh; injection hh; contradiction)
  | .num x, .num y =>
    if h : x = y then .isTrue (by rw [h])
    else .isFalse (by intro hh; injection hh; contradiction)
  | .str x, .str y =>
    if h : x = y then .isTrue (by rw [h])
    else .isFalse (by intro hh; injection hh; contradiction)
  | .arr xs, .arr ys =>
    match JVal.decEqList xs ys with
    | .isTrue h => .isTrue (by rw [h])
    | .isFalse h => .isFalse (by intro hh; injection hh; contradiction)
  | .obj xs, .obj ys =>
    match JVal.decEqFields xs ys with
    | .isTrue h => .isTrue (by rw [h])
    | .isFalse h => .isFalse (by intro hh; injection hh; contradiction)
  | .null, .bool _ => .isFalse (by intro h; cases h)
  | .null, .num _ => .isFalse (by intro h; cases h)
  | .null, .str _ => .isFalse (by intro h; cases h)
  | .null, .arr _ => .isFalse (by intro h; cases h)
  | .null, .obj _ => .isFalse (by intro h; cases h)
  | .bool _, .null => .isFalse (by intro h; cases h)
  | .bool _, .num _ => .isFalse (by intro h; cases h)
  | .bool _, .str _ => .isFalse (by intro h; cases h)
  | .bool _, .arr _ => .isFalse (by intro h; cases h)
  | .bool _, .obj _ => .isFalse (by intro h; cases h)
  | .num _, .null => .isFalse (by intro h; cases h)
  | .num _, .bool _ => .isFalse (by intro h; cases h)
  | .num _, .str _ => .isFalse (by intro h; cases h)
  | .num _, .arr _ => .isFalse (by intro h; cases h)
  | .num _, .obj _ => .isFalse (by intro h; cases h)
  | .str _, .null => .isFalse (by intro h; cases h)
  | .str _, .bool _ => .isFalse (by intro h; cases h)
  | .str _, .num _ => .isFalse (by intro h; cases h)
  | .str _, .arr _ => .isFalse (by intro h; cases h)
  | .str _, .obj _ => .isFalse (by intro h; cases h)
  | .arr _, .null => .isFalse (by intro h; cases h)
  | .arr _, .bool _ => .isFalse (by intro h; cases h)
  | .arr _, .num _ => .isFalse (by intro h; cases h)
  | .arr _, .str _ => .isFalse (by intro h; cases h)
  | .arr _, .obj _ => .isFalse (by intro h; cases h)
  | .obj _, .null => .isFalse (by intro h; cases h)
  | .obj _, .bool _ => .isFalse (by intro h; cases h)
  | .obj _, .num _ => .isFalse (by intro h; cases h)
  | .obj _, .str _ => .isFalse (by intro h; cases h)
  | .obj _, .arr _ => .isFalse (by intro h; cases h)

/-- Decidable equality on lists of JSON values. -/
def JVal.decEqList : (xs ys : List JVal) → Decidable (xs = ys)
  | [], [] => .isTrue rfl
  | [], _ :: _ => .isFalse (by intro h; cases h)
  | _ :: _, [] => .isFalse (by intro h; cases h)
  | x :: xs, y :: ys =>
    match JVal.decEq x y with
    | .isFalse h => .isFalse (by intro hh; injection hh; contradiction)
    | .isTrue h1 =>
      match JVal.decEqList xs ys with
      | .isTrue h2 => .isTrue (by rw [h1, h2])
      | .isFalse h => .isFalse (by intro hh; injection hh; contradiction)

/-- Decidable equality on JSON object field lists. -/
def JVal.decEqFields : (xs ys : List (String × JVal)) → Decidable (xs = ys)
  | [], [] => .isTrue rfl
  | [], _ :: _ => .isFalse (by intro h; cases h)
  | _ :: _, [] => .isFalse (by intro h; cases h)
  | (k1, v1) :: xs, (k2, v2) :: ys =>
    if hk : k1 = k2 then
      match JVal.decEq v1 v2 with
      | .isFalse h => .isFalse (by
          intro hh; injection hh with hhd hht; injection hhd; contradiction)
      | .isTrue h1 =>
        match JVal.decEqFields xs ys with
        | .isTrue h2 => .isTrue (by rw [hk, h1, h2])
        | .isFalse h => .isFalse (by intro hh; injection hh; contradiction)
    else .isFalse (by
      intro hh; injection hh with hhd hht; injection hhd; contradiction)

end

instance : DecidableEq JVal := JVal.decEq

example : (JVal.str "a") ≠ JVal.null := by decide
example : (JVal.arr [.str "a"]) = JVal.arr [.str "a"] := by decide

mutual

/-- Python `repr` of a JSON-decoded value, for the plain values the client
renders (strings without embedded quotes, backslashes or control
characters): `None`, `True`/`False`, decimal integers, single-quoted
strings, `[...]` lists and `\x7b...\x7d` dicts. This is the rendering
`str` applies to the elements of a list or dict. -/
def pyRepr : JVal → String
  | .null => "None"
  | .bool true => "True"
  | .bool false => "False"
  | .num n => toString n
  | .str s => "\x27" ++ s ++ "\x27"
  | .arr xs => "[" ++ pyReprElems xs ++ "]"
  | .obj fs => "\x7b" ++ pyReprFields fs ++ "\x7d"

/-- Comma-separated `repr` rendering of list elements. -/
def pyReprElems : List JVal → String
  | [] => ""
  | [x] => pyRepr x
  | x :: y :: xs => pyRepr x ++ ", " ++ pyReprElems (y :: xs)

/-- Comma-separated rendering of dict items, each as `repr(key): repr(value)`. -/
def pyReprFields : List (String × JVal) → String
  | [] => ""
  | [(k, v)] => "\x27" ++ k ++ "\x27: " ++ pyRepr v
  | (k, v) :: f :: fs =>
    "\x27" ++ k ++ "\x27: " ++ pyRepr v ++ ", " ++ pyReprFields (f :: fs)

end

/-- Python `str` of a JSON-decoded value: the string itself for strings,
`repr`-style rendering for everything else. -/
def pyStr : JVal → String
  | .str s => s
  | v => pyRepr v

example : pyStr (.str "Custom") = "Custom" := by decide
example : pyStr .null = "None" := by decide
example : pyRepr (.arr [.str "12345"]) = "[\x2712345\x27]" := by decide
example : pyRepr (.obj [("equal", .str "2024-01-01")])
    = "\x7b\x27equal\x27: \x272024-01-01\x27\x7d" := by decide

/-- Python truthiness of a JSON-decoded value: `None`, `False`, `0`, the
empty string, the empty list and the empty dict are falsy. -/
def truthy : JVal → Bool
  | .null => false
  | .bool b => b
  | .num n => n ≠ 0
  | .str s => ¬ s.isEmpty
  | .arr xs => ¬ xs.isEmpty
  | .obj fs => ¬ fs.isEmpty

example : truthy (.str "") = false := by decide
example : truthy (.str "CS1") = true := by decide

/-- Errors a call can raise: Python `KeyError(key)` (missing dict key),
`TypeError` (indexing or iterating a value of the wrong shape), and
transport-level failures surfaced by the HTTP layer. -/
inductive Err where
  | keyError : JVal → Err
  | typeError : Err
  | transport : String → Err
  deriving DecidableEq, Repr

/-- A Python dict as the cache slots hold one: key-value pairs in insertion
order, keys unique. Keys are arbitrary (hashable) Python values. -/
abbrev PyDict := List (JVal × JVal)

/-- Python `d[k] = v` on a dict: replace in place if the key is present,
append otherwise. -/
def dictInsert (d : PyDict) (k v : JVal) : PyDict :=
  match d with
  | [] => [(k, v)]
  | (k0, v0) :: rest =>
    if k0 = k then (k0, v) :: rest else (k0, v0) :: dictInsert rest k v

/-- Dict lookup, `None`-free form: `some` the stored value or `none`. -/
def dictLookup (d : PyDict) (k : JVal) : Option JVal :=
  match d with
  | [] => none
  | (k0, v0) :: rest => if k0 = k then some v0 else dictLookup rest k

/-- Python `d[k]` on a dict: the stored value, or `KeyError(k)`. -/
def dictGet (d : PyDict) (k : JVal) : Except Err JVal :=
  match dictLookup d k with
  | some v => .ok v
  | none => .error (.keyError k)

/-- Python `d.values()` on a dict, in insertion order. -/
def dictValues (d : PyDict) : List JVal := d.map Prod.snd

/-- Python `x[key]` for a string key on a JSON value: field lookup when `x`
is a dict (`KeyError` on a missing key), `TypeError` on any non-dict. -/
def jIndex (x : JVal) (key : String) : Except Err JVal :=
  match x with
  | .obj fs =>
    match fs.lookup key with
    | some v => .ok v
    | none => .error (.keyError (.str key))
  | _ => .error .typeError

instance {ε α : Type} [DecidableEq ε] [DecidableEq α] :
    DecidableEq (Except ε α) := fun a b =>
  match a, b with
  | .ok x, .ok y =>
    if h : x = y then .isTrue (by rw [h])
    else .isFalse (by intro hh; injection hh; contradiction)
  | .error x, .error y =>
    if h : x = y then .isTrue (by rw [h])
    else .isFalse (by intro hh; injection hh; contradiction)
  | .ok _, .error _ => .isFalse (by intro h; cases h)
  | .error _, .ok _ => .isFalse (by intro h; cases h)

example : jIndex (.obj [("id", .str "1")]) "id" = .ok (.str "1") := by decide
example : jIndex (.obj []) "id" = .error (.keyError (.str "id")) := by decide
example : jIndex (.arr []) "id" = .error .typeError := by decide

/-- One HTTP request as issued by `Wrike.get`: the path appended to the base
URL and the optional query-parameter dict. -/
structure Request where
  path : String
  params : Option (List (String × String))
  deriving DecidableEq, Repr

/-- The transport collaborator: maps a path and optional query parameters to
a parsed JSON body, or fails (network error, non-JSON body). -/
abbrev Fetch := String → Option (List (String × String)) → Except Err JVal

/-- `Wrike.get`: issue one GET through the transport and return the parsed
body, recording the request issued. -/
def Wrike.get (f : Fetch) (path : String)
    (params : Option (List (String × String))) :
    Except Err JVal × List Request :=
  (f path params, [⟨path, params⟩])

/-- The client's mutable cache state: the five optional dict slots cleared
by `reinitialize`. -/
structure Wrike where
  _contacts : Option PyDict
  _custom_fields : Option PyDict
  _custom_statuses : Option PyDict
  _folders : Option PyDict
  _workflows : Option PyDict
  deriving DecidableEq, Repr

/-- Python `not` applied to a cache slot: `not None` and `not \x7b\x7d` are
both true, so an unpopulated slot and an empty populated dict both read as
a miss. -/
def pyNot : Option PyDict → Bool
  | none => true
  | some d => d.isEmpty

/-- `Wrike.reinitialize`: clears the object's data cache by setting all five
slots back to `None`. -/
def Wrike.reinitialize (_w : Wrike) : Wrike :=
  { _contacts := none, _custom_fields := none, _custom_statuses := none,
    _folders := none, _workflows := none }

/-- `Wrike.query_contacts_all`. -/
def Wrike.query_contacts_all (f : Fetch) : Except Err JVal × List Request :=
  Wrike.get f "contacts" none

/-- `Wrike.query_custom_fields_all`. -/
def Wrike.query_custom_fields_all (f : Fetch) :
    Except Err JVal × List Request :=
  Wrike.get f "customfields" none

/-- `Wrike.query_folders_all`. -/
def Wrike.query_folders_all (f : Fetch) : Except Err JVal × List Request :=
  Wrike.get f "folders" none

/-- `Wrike.query_workflows`. -/
def Wrike.query_workflows (f : Fetch) : Except Err JVal × List Request :=
  Wrike.get f "workflows" none

/-- Left fold of `convert_list_to_dict` over the records. -/
def convertFold : PyDict → List JVal → Except Err PyDict
  | d, [] => .ok d
  | d, r :: rest =>
    match jIndex r "id" with
    | .error e => .error e
    | .ok idv => convertFold (dictInsert d idv r) rest

/-- Modelled from the spec: `helpers.convert_list_to_dict` (imported from
`py_wrike_v4.helpers`, a file not among the sources). Per §4.1 it builds a
dict keyed by each record's `id` field, fails with a key error when a
record lacks `id` (direct indexing, no skipping), and is last-write-wins
on duplicate ids. -/
def convert_list_to_dict : JVal → Except Err PyDict
  | .arr records => convertFold [] records
  | _ => .error .typeError

/-- The population step shared by the four fetching properties: unwrap the
response's `"data"` list and convert it to a dict keyed by `id`,
propagating the first raised exception. -/
def populateDict (q : Except Err JVal × List Request) :
    Except Err PyDict × List Request :=
  match q with
  | (.error e, t) => (.error e, t)
  | (.ok resp, t) =>
    match jIndex resp "data" with
    | .error e => (.error e, t)
    | .ok dv =>
      match convert_list_to_dict dv with
      | .error e => (.error e, t)
      | .ok d => (.ok d, t)

/-- `Wrike.contacts` property: on a falsy slot, fetch all contacts, unwrap
`data`, convert to a dict and store it; then return the slot. -/
def Wrike.contacts (f : Fetch) (w : Wrike) :
    Except Err PyDict × Wrike × List Request :=
  if pyNot w._contacts then
    match populateDict (Wrike.query_contacts_all f) with
    | (.error e, t) => (.error e, w, t)
    | (.ok d, t) => (.ok d, { w with _contacts := some d }, t)
  else
    (.ok (w._contacts.getD []), w, [])

/-- `Wrike.custom_fields` property: same lazy pattern over `customfields`. -/
def Wrike.custom_fields (f : Fetch) (w : Wrike) :
    Except Err PyDict × Wrike × List Request :=
  if pyNot w._custom_fields then
    match populateDict (Wrike.query_custom_fields_all f) with
    | (.error e, t) => (.error e, w, t)
    | (.ok d, t) => (.ok d, { w with _custom_fields := some d }, t)
  else
    (.ok (w._custom_fields.getD []), w, [])

/-- `Wrike.folders` property: same lazy pattern over `folders`. -/
def Wrike.folders (f : Fetch) (w : Wrike) :
    Except Err PyDict × Wrike × List Request :=
  if pyNot w._folders then
    match populateDict (Wrike.query_folders_all f) with
    | (.error e, t) => (.error e, w, t)
    | (.ok d, t) => (.ok d, { w with _folders := some d }, t)
  else
    (.ok (w._folders.getD []), w, [])

/-- `Wrike.workflows` property: same lazy pattern over `workflows`. -/
def Wrike.workflows (f : Fetch) (w : Wrike) :
    Except Err PyDict × Wrike × List Request :=
  if pyNot w._workflows then
    match populateDict (Wrike.query_workflows f) with
    | (.error e, t) => (.error e, w, t)
    | (.ok d, t) => (.ok d, { w with _workflows := some d }, t)
  else
    (.ok (w._workflows.getD []), w, [])

/-- Inner loop of the `custom_statuses` property: insert every custom status
of one workflow under its `id` key; on a raised exception, report it with
the insertions made so far. -/
def csInsertAll : PyDict → List JVal → PyDict × Option Err
  | d, [] => (d, none)
  | d, cs :: rest =>
    match jIndex cs "id" with
    | .error e => (d, some e)
    | .ok idv => csInsertAll (dictInsert d idv cs) rest

/-- Outer loop of the `custom_statuses` property over the workflow dict's
values: index each workflow at `customStatuses` and flatten that list into
the accumulating dict; a raised exception stops the loop, keeping the
insertions made so far. -/
def csLoop : PyDict → List JVal → PyDict × Option Err
  | d, [] => (d, none)
  | d, wf :: rest =>
    match jIndex wf "customStatuses" with
    | .error e => (d, some e)
    | .ok (.arr css) =>
      match csInsertAll d css with
      | (d2, some e) => (d2, some e)
      | (d2, none) => csLoop d2 rest
    | .ok _ => (d, some .typeError)

/-- `Wrike.custom_statuses` property: on a falsy slot, assign an empty dict,
then iterate `self.workflows.values()` (lazily populating the workflow
cache) and flatten each workflow's `customStatuses` list into the slot,
keyed by custom-status `id`. No dedicated fetch of its own. -/
def Wrike.custom_statuses (f : Fetch) (w : Wrike) :
    Except Err PyDict × Wrike × List Request :=
  if pyNot w._custom_statuses then
    match Wrike.workflows f { w with _custom_statuses := some [] } with
    | (.error e, w1, t) => (.error e, w1, t)
    | (.ok wd, w1, t) =>
      match csLoop [] (dictValues wd) with
      | (d, some e) => (.error e, { w1 with _custom_statuses := some d }, t)
      | (d, none) => (.ok d, { w1 with _custom_statuses := some d }, t)
  else
    (.ok (w._custom_statuses.getD []), w, [])

/-- `Wrike.extract_project_value_from_folder` (static): the value at
`folder["project"][key]`, with every raised exception collapsed to `None`
by the try/except. -/
def Wrike.extract_project_value_from_folder (key : String) (folder : JVal) :
    JVal :=
  match jIndex folder "project" with
  | .ok p =>
    match jIndex p key with
    | .ok v => v
    | .error _ => .null
  | .error _ => .null

/-- `Wrike.extract_project_status`: read `project.status` and
`project.customStatusId`; when `str(status) == "Custom"` and the id is
truthy, resolve `self.custom_statuses[custom_status_id]["name"]` (lazily
populating the caches); otherwise return the status as read. -/
def Wrike.extract_project_status (f : Fetch) (w : Wrike) (folder : JVal) :
    Except Err JVal × Wrike × List Request :=
  let status := Wrike.extract_project_value_from_folder "status" folder
  let custom_status_id :=
    Wrike.extract_project_value_from_folder "customStatusId" folder
  if pyStr status = "Custom" ∧ truthy custom_status_id = true then
    match Wrike.custom_statuses f w with
    | (.error e, w1, t) => (.error e, w1, t)
    | (.ok csd, w1, t) =>
      match dictGet csd custom_status_id with
      | .error e => (.error e, w1, t)
      | .ok record =>
        match jIndex record "name" with
        | .error e => (.error e, w1, t)
        | .ok nm => (.ok nm, w1, t)
  else
    (.ok status, w, [])

/-- `Wrike.IdTypes`: enumeration of API v2 endpoints. -/
inductive IdTypes where
  | ACCOUNT : IdTypes
  | USER : IdTypes
  | FOLDER : IdTypes
  | TASK : IdTypes
  | COMMENT : IdTypes
  | ATTACHMENT : IdTypes
  | TIMELOG : IdTypes
  deriving DecidableEq, Repr

/-- The protocol string of each `IdTypes` member (its enum value). -/
def IdTypes.value : IdTypes → String
  | .ACCOUNT => "ApiV2Account"
  | .USER => "ApiV2User"
  | .FOLDER => "ApiV2Folder"
  | .TASK => "ApiV2Task"
  | .COMMENT => "ApiV2Comment"
  | .ATTACHMENT => "ApiV2Attachment"
  | .TIMELOG => "ApiV2Timelog"

/-- `Wrike.convert_to_id4s`: one GET to `ids/` with query parameters
`type = idType.value` and `ids = str(id2s)` (the Python `str` rendering of
the list of v2 ids). -/
def Wrike.convert_to_id4s (f : Fetch) (id2s : List String)
    (idType : IdTypes) : Except Err JVal × List Request :=
  let params := [("type", IdTypes.value idType),
                 ("ids", pyStr (.arr (id2s.map .str)))]
  Wrike.get f "ids/" (some params)

/-- `Wrike.query_timelogs`: one GET to `<location>/timelogs` with
`descendants = true` always, plus a `trackedDate` parameter rendered as
the Python `str` of a dict — `equal` for one date, `start`/`end` for two,
and nothing for any other list length. -/
def Wrike.query_timelogs (f : Fetch) (location : String)
    (tracked_date : List String) : Except Err JVal × List Request :=
  let params := [("descendants", "true")]
  let params :=
    if tracked_date.isEmpty then params
    else if tracked_date.length = 1 then
      params ++ [("trackedDate",
        pyStr (.obj [("equal", .str (tracked_date.headD ""))]))]
    else if tracked_date.length = 2 then
      params ++ [("trackedDate",
        pyStr (.obj [("start", .str (tracked_date.headD "")),
                     ("end", .str (tracked_date.getD 1 ""))]))]
    else params
  Wrike.get f (location ++ "/timelogs") (some params)

/-! Concrete fixtures used by witnesses and counterexamples. -/

/-- A client state with every cache slot unpopulated (the state right after
construction or `reinitialize`). -/
def wNone : Wrike :=
  { _contacts := none, _custom_fields := none, _custom_statuses := none,
    _folders := none, _workflows := none }

/-- A transport whose every endpoint answers with an empty `data` list. -/
def fEmptyData : Fetch := fun _ _ => .ok (.obj [("data", .arr [])])

/-- A custom-status record. -/
def csBlocked : JVal := .obj [("id", .str "CS1"), ("name", .str "Blocked")]

/-- A workflow record embedding one custom status. -/
def wfMain : JVal :=
  .obj [("id", .str "W1"), ("customStatuses", .arr [csBlocked])]

/-- A transport returning one workflow on `workflows` and one generic
record elsewhere. -/
def fStd : Fetch := fun path _ =>
  if path = "workflows" then .ok (.obj [("data", .arr [wfMain])])
  else .ok (.obj [("data", .arr [.obj [("id", .str "U1")]])])

/-- A transport that always fails. -/
def fBoom : Fetch := fun _ _ => .error (.transport "connection refused")

example : (Wrike.contacts fEmptyData wNone).1 = .ok [] := by decide
example : (Wrike.contacts fEmptyData wNone).2.2 = [⟨"contacts", none⟩] := by
  decide
example : Wrike.contacts fEmptyData wNone
    = (.ok [], { wNone with _contacts := some [] }, [⟨"contacts", none⟩]) := by
  decide
example :
    (Wrike.contacts fEmptyData { wNone with _contacts := some [] }).2.2
      = [⟨"contacts", none⟩] := by decide
example : (Wrike.custom_statuses fStd wNone).1
    = .ok [(.str "CS1", csBlocked)] := by decide
example : (Wrike.custom_statuses fStd wNone).2.2
    = [⟨"workflows", none⟩] := by decide
example :
    (Wrike.extract_project_status fStd wNone
      (.obj [("project", .obj [("status", .str "Custom"),
        ("customStatusId", .str "CS1")])])).1 = .ok (.str "Blocked") := by
  decide
example :
    Wrike.extract_project_status fStd wNone (.obj [])
      = (.ok .null, wNone, []) := by decide

/-! Helper lemmas about the lazy accessors. -/

theorem populateDict_trace (q : Except Err JVal × List Request) :
    (populateDict q).2 = q.2 := by
  rcases q with ⟨r, t⟩
  cases r with
  | error e => rfl
  | ok resp =>
    simp only [populateDict]
    cases jIndex resp "data" with
    | error e => rfl
    | ok dv =>
      dsimp only
      cases convert_list_to_dict dv with
      | error e => rfl
      | ok d => rfl

theorem contacts_hit (f : Fetch) (w : Wrike) (d : PyDict)
    (hs : w._contacts = some d) (hne : d ≠ []) :
    Wrike.contacts f w = (.ok d, w, []) := by
  unfold Wrike.contacts
  rw [hs]
  cases d with
  | nil => exact absurd rfl hne
  | cons a as => rfl

theorem contacts_ok_slot (f : Fetch) (w : Wrike) (d : PyDict) (w1 : Wrike)
    (t : List Request) (h : Wrike.contacts f w = (.ok d, w1, t)) :
    w1._contacts = some d := by
  unfold Wrike.contacts at h
  by_cases hm : pyNot w._contacts = true
  · rw [if_pos hm] at h
    rcases hp : populateDict (Wrike.query_contacts_all f) with ⟨r, t0⟩
    rw [hp] at h
    cases r with
    | error e => simp at h
    | ok d0 =>
      simp only [Prod.mk.injEq, Except.ok.injEq] at h
      obtain ⟨h1, h2, h3⟩ := h
      rw [← h2, h1]
  · rw [if_neg hm] at h
    simp only [Prod.mk.injEq, Except.ok.injEq] at h
    obtain ⟨h1, h2, h3⟩ := h
    cases hc : w._contacts with
    | none => rw [hc] at hm; exact absurd rfl hm
    | some d0 =>
      rw [← h2, hc, ← h1, hc]
      rfl

theorem contacts_miss_trace (f : Fetch) (w : Wrike)
    (hm : pyNot w._contacts = true) :
    (Wrike.contacts f w).2.2 = [⟨"contacts", none⟩] := by
  unfold Wrike.contacts
  rw [if_pos hm]
  have ht := populateDict_trace (Wrike.query_contacts_all f)
  rcases hp : populateDict (Wrike.query_contacts_all f) with ⟨r, t0⟩
  rw [hp] at ht
  cases r <;> simpa using ht

theorem contacts_transport_error (f : Fetch) (w : Wrike) (e : Err)
    (hm : pyNot w._contacts = true) (hf : f "contacts" none = .error e) :
    Wrike.contacts f w = (.error e, w, [⟨"contacts", none⟩]) := by
  unfold Wrike.contacts
  rw [if_pos hm]
  have hp : populateDict (Wrike.query_contacts_all f)
      = (.error e, [⟨"contacts", none⟩]) := by
    unfold Wrike.query_contacts_all Wrike.get populateDict
    rw [hf]
  rw [hp]

theorem custom_fields_hit (f : Fetch) (w : Wrike) (d : PyDict)
    (hs : w._custom_fields = some d) (hne : d ≠ []) :
    Wrike.custom_fields f w = (.ok d, w, []) := by
  unfold Wrike.custom_fields
  rw [hs]
  cases d with
  | nil => exact absurd rfl hne
  | cons a as => rfl

theorem custom_fields_ok_slot (f : Fetch) (w : Wrike) (d : PyDict)
    (w1 : Wrike) (t : List Request)
    (h : Wrike.custom_fields f w = (.ok d, w1, t)) :
    w1._custom_fields = some d := by
  unfold Wrike.custom_fields at h
  by_cases hm : pyNot w._custom_fields = true
  · rw [if_pos hm] at h
    rcases hp : populateDict (Wrike.query_custom_fields_all f) with ⟨r, t0⟩
    rw [hp] at h
    cases r with
    | error e => simp at h
    | ok d0 =>
      simp only [Prod.mk.injEq, Except.ok.injEq] at h
      obtain ⟨h1, h2, h3⟩ := h
      rw [← h2, h1]
  · rw [if_neg hm] at h
    simp only [Prod.mk.injEq, Except.ok.injEq] at h
    obtain ⟨h1, h2, h3⟩ := h
    cases hc : w._custom_fields with
    | none => rw [hc] at hm; exact absurd rfl hm
    | some d0 =>
      rw [← h2, hc, ← h1, hc]
      rfl

theorem custom_fields_miss_trace (f : Fetch) (w : Wrike)
    (hm : pyNot w._custom_fields = true) :
    (Wrike.custom_fields f w).2.2 = [⟨"customfields", none⟩] := by
  unfold Wrike.custom_fields
  rw [if_pos hm]
  have ht := populateDict_trace (Wrike.query_custom_fields_all f)
  rcases hp : populateDict (Wrike.query_custom_fields_all f) with ⟨r, t0⟩
  rw [hp] at ht
  cases r <;> simpa using ht

theorem custom_fields_transport_error (f : Fetch) (w : Wrike) (e : Err)
    (hm : pyNot w._custom_fields = true)
    (hf : f "customfields" none = .error e) :
    Wrike.custom_fields f w = (.error e, w, [⟨"customfields", none⟩]) := by
  unfold Wrike.custom_fields
  rw [if_pos hm]
  have hp : populateDict (Wrike.query_custom_fields_all f)
      = (.error e, [⟨"customfields", none⟩]) := by
    unfold Wrike.query_custom_fields_all Wrike.get populateDict
    rw [hf]
  rw [hp]

theorem folders_hit (f : Fetch) (w : Wrike) (d : PyDict)
    (hs : w._folders = some d) (hne : d ≠ []) :
    Wrike.folders f w = (.ok d, w, []) := by
  unfold Wrike.folders
  rw [hs]
  cases d with
  | nil => exact absurd rfl hne
  | cons a as => rfl

theorem folders_ok_slot (f : Fetch) (w : Wrike) (d : PyDict) (w1 : Wrike)
    (t : List Request) (h : Wrike.folders f w = (.ok d, w1, t)) :
    w1._folders = some d := by
  unfold Wrike.folders at h
  by_cases hm : pyNot w._folders = true
  · rw [if_pos hm] at h
    rcases hp : populateDict (Wrike.query_folders_all f) with ⟨r, t0⟩
    rw [hp] at h
    cases r with
    | error e => simp at h
    | ok d0 =>
      simp only [Prod.mk.injEq, Except.ok.injEq] at h
      obtain ⟨h1, h2, h3⟩ := h
      rw [← h2, h1]
  · rw [if_neg hm] at h
    simp only [Prod.mk.injEq, Except.ok.injEq] at h
    obtain ⟨h1, h2, h3⟩ := h
    cases hc : w._folders with
    | none => rw [hc] at hm; exact absurd rfl hm
    | some d0 =>
      rw [← h2, hc, ← h1, hc]
      rfl

theorem folders_miss_trace (f : Fetch) (w : Wrike)
    (hm : pyNot w._folders = true) :
    (Wrike.folders f w).2.2 = [⟨"folders", none⟩] := by
  unfold Wrike.folders
  rw [if_pos hm]
  have ht := populateDict_trace (Wrike.query_folders_all f)
  rcases hp : populateDict (Wrike.query_folders_all f) with ⟨r, t0⟩
  rw [hp] at ht
  cases r <;> simpa using ht

theorem folders_transport_error (f : Fetch) (w : Wrike) (e : Err)
    (hm : pyNot w._folders = true) (hf : f "folders" none = .error e) :
    Wrike.folders f w = (.error e, w, [⟨"folders", none⟩]) := by
  unfold Wrike.folders
  rw [if_pos hm]
  have hp : populateDict (Wrike.query_folders_all f)
      = (.error e, [⟨"folders", none⟩]) := by
    unfold Wrike.query_folders_all Wrike.get populateDict
    rw [hf]
  rw [hp]

theorem workflows_hit (f : Fetch) (w : Wrike) (d : PyDict)
    (hs : w._workflows = some d) (hne : d ≠ []) :
    Wrike.workflows f w = (.ok d, w, []) := by
  unfold Wrike.workflows
  rw [hs]
  cases d with
  | nil => exact absurd rfl hne
  | cons a as => rfl

theorem workflows_ok_slot (f : Fetch) (w : Wrike) (d : PyDict) (w1 : Wrike)
    (t : List Request) (h : Wrike.workflows f w = (.ok d, w1, t)) :
    w1._workflows = some d := by
  unfold Wrike.workflows at h
  by_cases hm : pyNot w._workflows = true
  · rw [if_pos hm] at h
    rcases hp : populateDict (Wrike.query_workflows f) with ⟨r, t0⟩
    rw [hp] at h
    cases r with
    | error e => simp at h
    | ok d0 =>
      simp only [Prod.mk.injEq, Except.ok.injEq] at h
      obtain ⟨h1, h2, h3⟩ := h
      rw [← h2, h1]
  · rw [if_neg hm] at h
    simp only [Prod.mk.injEq, Except.ok.injEq] at h
    obtain ⟨h1, h2, h3⟩ := h
    cases hc : w._workflows with
    | none => rw [hc] at hm; exact absurd rfl hm
    | some d0 =>
      rw [← h2, hc, ← h1, hc]
      rfl

theorem workflows_miss_trace (f : Fetch) (w : Wrike)
    (hm : pyNot w._workflows = true) :
    (Wrike.workflows f w).2.2 = [⟨"workflows", none⟩] := by
  unfold Wrike.workflows
  rw [if_pos hm]
  have ht := populateDict_trace (Wrike.query_workflows f)
  rcases hp : populateDict (Wrike.query_workflows f) with ⟨r, t0⟩
  rw [hp] at ht
  cases r <;> simpa using ht

theorem workflows_transport_error (f : Fetch) (w : Wrike) (e : Err)
    (hm : pyNot w._workflows = true) (hf : f "workflows" none = .error e) :
    Wrike.workflows f w = (.error e, w, [⟨"workflows", none⟩]) := by
  unfold Wrike.workflows
  rw [if_pos hm]
  have hp : populateDict (Wrike.query_workflows f)
      = (.error e, [⟨"workflows", none⟩]) := by
    unfold Wrike.query_workflows Wrike.get populateDict
    rw [hf]
  rw [hp]

theorem workflows_state_cs (f : Fetch) (w : Wrike) (x : Option PyDict) :
    Wrike.workflows f { w with _custom_statuses := x }
      = ((Wrike.workflows f w).1,
         { (Wrike.workflows f w).2.1 with _custom_statuses := x },
         (Wrike.workflows f w).2.2) := by
  unfold Wrike.workflows
  by_cases hm : pyNot w._workflows = true
  · have hm' :
        pyNot ({ w with _custom_statuses := x } : Wrike)._workflows = true :=
      hm
    rw [if_pos hm', if_pos hm]
    rcases hp : populateDict (Wrike.query_workflows f) with ⟨r, t0⟩
    cases r <;> rfl
  · have hm' :
        ¬ pyNot ({ w with _custom_statuses := x } : Wrike)._workflows
            = true :=
      hm
    rw [if_neg hm', if_neg hm]

theorem custom_statuses_hit (f : Fetch) (w : Wrike) (d : PyDict)
    (hs : w._custom_statuses = some d) (hne : d ≠ []) :
    Wrike.custom_statuses f w = (.ok d, w, []) := by
  unfold Wrike.custom_statuses
  rw [hs]
  cases d with
  | nil => exact absurd rfl hne
  | cons a as => rfl

theorem custom_statuses_miss_eq (f : Fetch) (w : Wrike)
    (hm : pyNot w._custom_statuses = true) :
    Wrike.custom_statuses f w =
      match Wrike.workflows f { w with _custom_statuses := some [] } with
      | (.error e, w1, t) => (.error e, w1, t)
      | (.ok wd, w1, t) =>
        match csLoop [] (dictValues wd) with
        | (d, some e) => (.error e, { w1 with _custom_statuses := some d }, t)
        | (d, none) => (.ok d, { w1 with _custom_statuses := some d }, t) := by
  unfold Wrike.custom_statuses
  rw [if_pos hm]

theorem custom_statuses_ok_slot (f : Fetch) (w : Wrike) (d : PyDict)
    (w1 : Wrike) (t : List Request)
    (h : Wrike.custom_statuses f w = (.ok d, w1, t)) :
    w1._custom_statuses = some d := by
  unfold Wrike.custom_statuses at h
  by_cases hm : pyNot w._custom_statuses = true
  · rw [if_pos hm] at h
    rcases hw : Wrike.workflows f { w with _custom_statuses := some [] }
      with ⟨r, w2, t0⟩
    rw [hw] at h
    cases r with
    | error e => simp at h
    | ok wd =>
      dsimp only at h
      rcases hl : csLoop [] (dictValues wd) with ⟨d2, err⟩
      rw [hl] at h
      cases err with
      | some e => simp at h
      | none =>
        simp only [Prod.mk.injEq, Except.ok.injEq] at h
        obtain ⟨h1, h2, h3⟩ := h
        rw [← h2, h1]
  · rw [if_neg hm] at h
    simp only [Prod.mk.injEq, Except.ok.injEq] at h
    obtain ⟨h1, h2, h3⟩ := h
    cases hc : w._custom_statuses with
    | none => rw [hc] at hm; exact absurd rfl hm
    | some d0 =>
      rw [← h2, hc, ← h1, hc]
      rfl

theorem dictInsert_mem (d : PyDict) (k v : JVal) (p : JVal × JVal)
    (h : p ∈ dictInsert d k v) : p ∈ d ∨ p = (k, v) := by
  induction d with
  | nil =>
    simp only [dictInsert, List.mem_singleton] at h
    exact Or.inr h
  | cons kv rest ih =>
    rcases kv with ⟨k0, v0⟩
    simp only [dictInsert] at h
    by_cases hk : k0 = k
    · rw [if_pos hk] at h
      rcases List.mem_cons.mp h with h0 | h0
      · subst hk
        exact Or.inr (by rw [h0])
      · exact Or.inl (List.mem_cons_of_mem _ h0)
    · rw [if_neg hk] at h
      rcases List.mem_cons.mp h with h0 | h0
      · exact Or.inl (by rw [h0]; exact List.mem_cons_self _ _)
      · rcases ih h0 with h1 | h1
        · exact Or.inl (List.mem_cons_of_mem _ h1)
        · exact Or.inr h1

theorem csInsertAll_mem (css : List JVal) (d : PyDict) (k v : JVal)
    (h : (k, v) ∈ (csInsertAll d css).1) :
    (k, v) ∈ d ∨ jIndex v "id" = .ok k := by
  induction css generalizing d with
  | nil => exact Or.inl h
  | cons cs rest ih =>
    simp only [csInsertAll] at h
    cases hid : jIndex cs "id" with
    | error e =>
      rw [hid] at h
      exact Or.inl h
    | ok idv =>
      rw [hid] at h
      rcases ih _ h with h0 | h0
      · rcases dictInsert_mem _ _ _ _ h0 with h1 | h1
        · exact Or.inl h1
        · right
          have hk : k = idv := congrArg Prod.fst h1
          have hv : v = cs := congrArg Prod.snd h1
          rw [hk, hv]
          exact hid
      · exact Or.inr h0

theorem csLoop_mem (ws : List JVal) (d : PyDict) (k v : JVal)
    (h : (k, v) ∈ (csLoop d ws).1) :
    (k, v) ∈ d ∨ jIndex v "id" = .ok k := by
  induction ws generalizing d with
  | nil => exact Or.inl h
  | cons wf rest ih =>
    simp only [csLoop] at h
    cases hcs : jIndex wf "customStatuses" with
    | error e =>
      rw [hcs] at h
      exact Or.inl h
    | ok cv =>
      rw [hcs] at h
      cases cv with
      | arr css =>
        dsimp only at h
        rcases hin : csInsertAll d css with ⟨d2, err⟩
        rw [hin] at h
        cases err with
        | some e =>
          dsimp only at h
          have : (k, v) ∈ (csInsertAll d css).1 := by rw [hin]; exact h
          exact csInsertAll_mem _ _ _ _ this
        | none =>
          dsimp only at h
          rcases ih _ h with h0 | h0
          · have : (k, v) ∈ (csInsertAll d css).1 := by rw [hin]; exact h0
            exact csInsertAll_mem _ _ _ _ this
          · exact Or.inr h0
      | null => exact Or.inl h
      | bool b => exact Or.inl h
      | num n => exact Or.inl h
      | str s => exact Or.inl h
      | obj fs => exact Or.inl h

theorem csLoop_keyed (ws : List JVal) (k v : JVal)
    (h : (k, v) ∈ (csLoop [] ws).1) : jIndex v "id" = .ok k := by
  rcases csLoop_mem ws [] k v h with h0 | h0
  · cases h0
  · exact h0

theorem workflows_hit_any (f : Fetch) (w : Wrike)
    (hm : pyNot w._workflows = false) :
    Wrike.workflows f w = (.ok (w._workflows.getD []), w, []) := by
  unfold Wrike.workflows
  rw [if_neg (by simp [hm])]

theorem custom_statuses_miss_trace_eq (f : Fetch) (w : Wrike)
    (hm : pyNot w._custom_statuses = true) :
    (Wrike.custom_statuses f w).2.2 = (Wrike.workflows f w).2.2 := by
  rw [custom_statuses_miss_eq f w hm, workflows_state_cs]
  rcases hr : (Wrike.workflows f w).1 with e | wd
  · rfl
  · dsimp only
    rcases hl : csLoop [] (dictValues wd) with ⟨d2, err⟩
    cases err <;> rfl

theorem workflows_trace_shape (f : Fetch) (w : Wrike) :
    (Wrike.workflows f w).2.2 = [] ∨
      (Wrike.workflows f w).2.2 = [⟨"workflows", none⟩] := by
  by_cases hm : pyNot w._workflows = true
  · exact Or.inr (workflows_miss_trace f w hm)
  · rw [workflows_hit_any f w (by simpa using hm)]
    exact Or.inl rfl

theorem custom_statuses_miss_result (f : Fetch) (w : Wrike)
    (hm : pyNot w._custom_statuses = true) (wd : PyDict) (w1 : Wrike)
    (t : List Request) (hw : Wrike.workflows f w = (.ok wd, w1, t))
    (hok : (csLoop [] (dictValues wd)).2 = none) :
    (Wrike.custom_statuses f w).1 = .ok (csLoop [] (dictValues wd)).1 := by
  rw [custom_statuses_miss_eq f w hm, workflows_state_cs, hw]
  dsimp only
  rcases hl : csLoop [] (dictValues wd) with ⟨d2, err⟩
  rw [hl] at hok
  cases err with
  | none => rfl
  | some e => simp at hok

theorem dictLookup_mem (d : PyDict) (k v : JVal)
    (h : dictLookup d k = some v) : (k, v) ∈ d := by
  induction d with
  | nil => simp [dictLookup] at h
  | cons kv rest ih =>
    rcases kv with ⟨k0, v0⟩
    simp only [dictLookup] at h
    by_cases hk : k0 = k
    · rw [if_pos hk] at h
      injection h with h
      rw [← hk, ← h]
      exact List.mem_cons_self _ _
    · rw [if_neg hk] at h
      exact List.mem_cons_of_mem _ (ih h)

/-! The claims. -/

/-- C2: `reinitialize` sets all five cache slots (contacts, custom fields,
custom statuses, folders, workflows) to the unpopulated state, and the
next call of each accessor after a reset issues a fresh Transport fetch
(for the derived custom-statuses cache, the workflows fetch of its chain)
rather than serving a previously cached dictionary. -/
theorem reinitialize_resets_caches (w : Wrike) (f : Fetch) :
    Wrike.reinitialize w
      = { _contacts := none, _custom_fields := none,
          _custom_statuses := none, _folders := none, _workflows := none }
  ∧ (Wrike.contacts f (Wrike.reinitialize w)).2.2 = [⟨"contacts", none⟩]
  ∧ (Wrike.custom_fields f (Wrike.reinitialize w)).2.2
      = [⟨"customfields", none⟩]
  ∧ (Wrike.custom_statuses f (Wrike.reinitialize w)).2.2
      = [⟨"workflows", none⟩]
  ∧ (Wrike.folders f (Wrike.reinitialize w)).2.2 = [⟨"folders", none⟩]
  ∧ (Wrike.workflows f (Wrike.reinitialize w)).2.2
      = [⟨"workflows", none⟩] := by
  refine ⟨rfl, contacts_miss_trace f _ rfl, custom_fields_miss_trace f _ rfl,
    ?_, folders_miss_trace f _ rfl, workflows_miss_trace f _ rfl⟩
  rw [custom_statuses_miss_trace_eq f (Wrike.reinitialize w) rfl]
  exact workflows_miss_trace f (Wrike.reinitialize w) rfl

/-- C9: for each of the contacts, custom-fields, folders and workflows
accessors, a transport error raised during a cache-miss population
propagates unmodified and leaves the client state — in particular the
slot — unchanged, so a later access misses again and retries the fetch. -/
theorem cache_population_atomic (f : Fetch) (w : Wrike) (e : Err) :
    (pyNot w._contacts = true → f "contacts" none = .error e →
      Wrike.contacts f w = (.error e, w, [⟨"contacts", none⟩]))
  ∧ (pyNot w._custom_fields = true → f "customfields" none = .error e →
      Wrike.custom_fields f w = (.error e, w, [⟨"customfields", none⟩]))
  ∧ (pyNot w._folders = true → f "folders" none = .error e →
      Wrike.folders f w = (.error e, w, [⟨"folders", none⟩]))
  ∧ (pyNot w._workflows = true → f "workflows" none = .error e →
      Wrike.workflows f w = (.error e, w, [⟨"workflows", none⟩])) :=
  ⟨contacts_transport_error f w e, custom_fields_transport_error f w e,
   folders_transport_error f w e, workflows_transport_error f w e⟩

/-- Witness for C9 at a concrete failing transport and the reset state. -/
theorem cache_population_atomic_witness :
    Wrike.contacts fBoom wNone
      = (.error (.transport "connection refused"), wNone,
         [⟨"contacts", none⟩]) :=
  (cache_population_atomic fBoom wNone (.transport "connection refused")).1
    rfl rfl

/-- C10: a `tracked_date` list of three or more dates silently loses the
filter: the GET goes out with only `descendants=true` and no
`trackedDate` parameter. -/
theorem query_timelogs_extra_dates_dropped (f : Fetch) (location : String)
    (td : List String) (h : 3 ≤ td.length) :
    Wrike.query_timelogs f location td
      = (f (location ++ "/timelogs") (some [("descendants", "true")]),
         [⟨location ++ "/timelogs", some [("descendants", "true")]⟩]) := by
  have h0 : td.isEmpty = false := by
    cases td with
    | nil => simp at h
    | cons a as => rfl
  have h1 : td.length ≠ 1 := by omega
  have h2 : td.length ≠ 2 := by omega
  simp only [Wrike.query_timelogs, Wrike.get, h0, Bool.false_eq_true,
    if_false, if_neg h1, if_neg h2]

/-- Witness for C10 at a three-date list. -/
theorem query_timelogs_extra_dates_dropped_witness :
    3 ≤ (["a", "b", "c"] : List String).length
  ∧ Wrike.query_timelogs fStd "x" ["a", "b", "c"]
      = (fStd "x/timelogs" (some [("descendants", "true")]),
         [⟨"x/timelogs", some [("descendants", "true")]⟩]) :=
  ⟨by decide,
   query_timelogs_extra_dates_dropped fStd "x" ["a", "b", "c"] (by decide)⟩

/-- C7: `convert_to_id4s` issues exactly one Transport GET to the fixed
`ids/` endpoint with `type` the tag's protocol string (per the fixed
ACCOUNT..TIMELOG table) and `ids` the Python string rendering of the id
list; in particular `convert_to_id4s(["12345"], FOLDER)` sends
`type=ApiV2Folder` and `ids=['12345']`. -/
theorem convert_to_id4s_request (f : Fetch) (id2s : List String)
    (idType : IdTypes) :
    (Wrike.convert_to_id4s f id2s idType).2
      = [⟨"ids/", some [("type", IdTypes.value idType),
           ("ids", pyStr (.arr (id2s.map .str)))]⟩]
  ∧ IdTypes.value .ACCOUNT = "ApiV2Account"
  ∧ IdTypes.value .USER = "ApiV2User"
  ∧ IdTypes.value .FOLDER = "ApiV2Folder"
  ∧ IdTypes.value .TASK = "ApiV2Task"
  ∧ IdTypes.value .COMMENT = "ApiV2Comment"
  ∧ IdTypes.value .ATTACHMENT = "ApiV2Attachment"
  ∧ IdTypes.value .TIMELOG = "ApiV2Timelog"
  ∧ (Wrike.convert_to_id4s f ["12345"] .FOLDER).2
      = [⟨"ids/", some [("type", "ApiV2Folder"),
           ("ids", "[\x2712345\x27]")]⟩] :=
  ⟨rfl, rfl, rfl, rfl, rfl, rfl, rfl, rfl, rfl⟩

/-- C8: every timelog query GETs `<location>/timelogs` and always carries
`descendants=true`; one tracked date adds an `equal` exact-match filter
and two dates add a `start`/`end` range filter carrying both, each
rendered as the Python string of the filter dict; in particular the
`tasks/T1` range scenario sends both dates. -/
theorem query_timelogs_params (f : Fetch) (location : String)
    (td : List String) :
    (∃ rest, (Wrike.query_timelogs f location td).2
        = [⟨location ++ "/timelogs", some (("descendants", "true") :: rest)⟩])
  ∧ (∀ d1, td = [d1] → (Wrike.query_timelogs f location td).2
      = [⟨location ++ "/timelogs", some [("descendants", "true"),
           ("trackedDate", pyStr (.obj [("equal", .str d1)]))]⟩])
  ∧ (∀ d1 d2, td = [d1, d2] → (Wrike.query_timelogs f location td).2
      = [⟨location ++ "/timelogs", some [("descendants", "true"),
           ("trackedDate",
             pyStr (.obj [("start", .str d1), ("end", .str d2)]))]⟩])
  ∧ (Wrike.query_timelogs f "tasks/T1" ["2024-01-01", "2024-01-31"]).2
      = [⟨"tasks/T1/timelogs", some [("descendants", "true"),
           ("trackedDate",
            "\x7b\x27start\x27: \x272024-01-01\x27, \x27end\x27: \x272024-01-31\x27\x7d")]⟩] := by
  refine ⟨?_, ?_, ?_, rfl⟩
  · simp only [Wrike.query_timelogs, Wrike.get]
    split
    · exact ⟨[], rfl⟩
    · split
      · exact ⟨[("trackedDate",
          pyStr (.obj [("equal", .str (td.headD ""))]))], rfl⟩
      · split
        · exact ⟨[("trackedDate",
            pyStr (.obj [("start", .str (td.headD "")),
              ("end", .str (td.getD 1 ""))]))], rfl⟩
        · exact ⟨[], rfl⟩
  · intro d1 h
    subst h
    rfl
  · intro d1 d2 h
    subst h
    rfl

/-- Witness for C8 at a concrete one-date query. -/
theorem query_timelogs_params_witness :
    (Wrike.query_timelogs fStd "folders/F9" ["2024-05-05"]).2
      = [⟨"folders/F9/timelogs", some [("descendants", "true"),
           ("trackedDate", pyStr (.obj [("equal", .str "2024-05-05")]))]⟩] :=
  (query_timelogs_params fStd "folders/F9" ["2024-05-05"]).2.1
    "2024-05-05" rfl

/-- C5: whenever the nested path `project.<key>` is missing at any level
(no indexable `project` object or no such key beneath it), the traversal
returns the explicit absent value `None` instead of raising; in
particular the status extractor on the empty folder returns `None` with
no error and no Transport request. -/
theorem extract_project_value_absent (key : String) (folder : JVal)
    (f : Fetch) (w : Wrike)
    (h : ¬ ∃ p v, jIndex folder "project" = .ok p ∧ jIndex p key = .ok v) :
    Wrike.extract_project_value_from_folder key folder = .null
  ∧ Wrike.extract_project_status f w (.obj []) = (.ok .null, w, []) := by
  constructor
  · unfold Wrike.extract_project_value_from_folder
    cases hp : jIndex folder "project" with
    | error e => rfl
    | ok p =>
      dsimp only
      cases hk : jIndex p key with
      | error e => rfl
      | ok v => exact absurd ⟨p, v, hp, hk⟩ h
  · rfl

/-- Witness for C5 at the empty folder and the `status` key. -/
theorem extract_project_value_absent_witness :
    Wrike.extract_project_value_from_folder "status" (.obj []) = .null
  ∧ Wrike.extract_project_status fStd wNone (.obj [])
      = (.ok .null, wNone, []) :=
  extract_project_value_absent "status" (.obj []) fStd wNone
    (fun ⟨_p, _v, hp, _hv⟩ => Except.noConfusion hp)

/-- C1 is false as stated: against a transport whose `contacts` endpoint
returns an empty `data` list, the first accessor call populates the slot
with the empty dict, yet the second call — with no intervening reset —
issues a further Transport fetch, because the falsy-slot check treats the
stored empty dict as unpopulated. -/
theorem cache_idempotence_cex :
    Wrike.contacts fEmptyData wNone
      = (.ok [], { wNone with _contacts := some [] }, [⟨"contacts", none⟩])
  ∧ (Wrike.contacts fEmptyData
        { wNone with _contacts := some [] }).2.2
      = [⟨"contacts", none⟩] :=
  ⟨by decide, by decide⟩

/-- C1 (amended): for each of the five resource kinds, when an accessor
call returns a non-empty dictionary, calling it again with no intervening
`reset()` issues no further Transport fetch and returns the same
dictionary value and state; when the first population produced an empty
dictionary, the slot is read as unpopulated and the next call fetches
again (as the counterexample shows). -/
theorem cache_idempotent_nonempty (f : Fetch) (w : Wrike) (d : PyDict)
    (w1 : Wrike) (t : List Request) (hne : d ≠ []) :
    (Wrike.contacts f w = (.ok d, w1, t) →
      Wrike.contacts f w1 = (.ok d, w1, []))
  ∧ (Wrike.custom_fields f w = (.ok d, w1, t) →
      Wrike.custom_fields f w1 = (.ok d, w1, []))
  ∧ (Wrike.custom_statuses f w = (.ok d, w1, t) →
      Wrike.custom_statuses f w1 = (.ok d, w1, []))
  ∧ (Wrike.folders f w = (.ok d, w1, t) →
      Wrike.folders f w1 = (.ok d, w1, []))
  ∧ (Wrike.workflows f w = (.ok d, w1, t) →
      Wrike.workflows f w1 = (.ok d, w1, [])) :=
  ⟨fun h => contacts_hit f w1 d (contacts_ok_slot f w d w1 t h) hne,
   fun h => custom_fields_hit f w1 d (custom_fields_ok_slot f w d w1 t h) hne,
   fun h =>
     custom_statuses_hit f w1 d (custom_statuses_ok_slot f w d w1 t h) hne,
   fun h => folders_hit f w1 d (folders_ok_slot f w d w1 t h) hne,
   fun h => workflows_hit f w1 d (workflows_ok_slot f w d w1 t h) hne⟩

/-- Witness for the amended C1: a non-empty first population of the
contacts cache, then a second call serving it with no request. -/
theorem cache_idempotent_nonempty_witness :
    Wrike.contacts fStd
        { wNone with _contacts := some [(.str "U1", .obj [("id", .str "U1")])] }
      = (.ok [(.str "U1", .obj [("id", .str "U1")])],
         { wNone with _contacts := some [(.str "U1", .obj [("id", .str "U1")])] },
         []) :=
  (cache_idempotent_nonempty fStd wNone
      [(.str "U1", .obj [("id", .str "U1")])]
      { wNone with _contacts := some [(.str "U1", .obj [("id", .str "U1")])] }
      [⟨"contacts", none⟩] (by decide)).1 (by decide)

/-- C3: on a custom-statuses miss the cache is derived, not fetched: the
requests issued are exactly those of the workflows accessor — at most one,
all to the `workflows` endpoint, and none at all once the workflow cache
holds a non-empty dict — and on success the result is the flattening
`csLoop` of the workflow dict's values into a single dictionary in which
every entry is keyed by its record's `id`. -/
theorem custom_statuses_derived (f : Fetch) (w : Wrike)
    (hm : pyNot w._custom_statuses = true) :
    (Wrike.custom_statuses f w).2.2 = (Wrike.workflows f w).2.2
  ∧ (Wrike.custom_statuses f w).2.2.length ≤ 1
  ∧ (∀ r ∈ (Wrike.custom_statuses f w).2.2, r.path = "workflows")
  ∧ (∀ d, w._workflows = some d → d ≠ [] →
      (Wrike.custom_statuses f w).2.2 = [])
  ∧ (∀ wd w1 t, Wrike.workflows f w = (.ok wd, w1, t) →
      (csLoop [] (dictValues wd)).2 = none →
      (Wrike.custom_statuses f w).1 = .ok (csLoop [] (dictValues wd)).1)
  ∧ (∀ ws k v, (k, v) ∈ (csLoop [] ws).1 → jIndex v "id" = .ok k) := by
  have htr := custom_statuses_miss_trace_eq f w hm
  refine ⟨htr, ?_, ?_, ?_, ?_, csLoop_keyed⟩
  · rw [htr]
    rcases workflows_trace_shape f w with h | h <;> rw [h] <;> simp
  · rw [htr]
    rcases workflows_trace_shape f w with h | h <;> rw [h]
    · intro r hr
      cases hr
    · intro r hr
      rw [List.mem_singleton.mp hr]
  · intro d hd hne
    have hmiss : pyNot w._workflows = false := by
      rw [hd]
      cases d with
      | nil => exact absurd rfl hne
      | cons a as => rfl
    rw [htr, workflows_hit_any f w hmiss]
  · intro wd w1 t hw hok
    exact custom_statuses_miss_result f w hm wd w1 t hw hok

/-- Witness for C3 at the reset state and a concrete workflow fixture. -/
theorem custom_statuses_derived_witness :
    (Wrike.custom_statuses fStd wNone).2.2
      = (Wrike.workflows fStd wNone).2.2 :=
  (custom_statuses_derived fStd wNone rfl).1

/-- A folder whose project is Custom with an empty-string custom-status id:
the id key is present in the JSON, but its value is falsy in Python. -/
def folderEmptyId : JVal :=
  .obj [("project", .obj [("status", .str "Custom"),
    ("customStatusId", .str "")])]

/-- A custom-statuses cache mapping the empty-string id to a named record. -/
def csEmptyId : PyDict :=
  [(.str "", .obj [("id", .str ""), ("name", .str "X")])]

/-- A client whose custom-statuses cache is `csEmptyId`. -/
def wCsEmptyId : Wrike := { wNone with _custom_statuses := some csEmptyId }

/-- A custom-statuses cache holding only an unrelated id `A`. -/
def csOther : PyDict :=
  [(.str "A", .obj [("id", .str "A"), ("name", .str "N")])]

/-- A client whose custom-statuses cache is `csOther`. -/
def wCsOther : Wrike := { wNone with _custom_statuses := some csOther }

/-- C4 is false as stated: on a folder whose `project.customStatusId` is
present but the empty string, the source's truthiness guard skips the
cache lookup and the raw `"Custom"` comes back — even though the cache
maps `""` to a record named `"X"`, which is what the claim says should be
returned. No transport call happens (the transport here always fails). -/
theorem extract_status_custom_cex :
    Wrike.extract_project_value_from_folder "customStatusId" folderEmptyId
      = .str ""
  ∧ (JVal.str "") ≠ .null
  ∧ dictLookup csEmptyId (.str "")
      = some (.obj [("id", .str ""), ("name", .str "X")])
  ∧ jIndex (.obj [("id", .str ""), ("name", .str "X")]) "name"
      = .ok (.str "X")
  ∧ Wrike.extract_project_status fBoom wCsEmptyId folderEmptyId
      = (.ok (.str "Custom"), wCsEmptyId, [])
  ∧ (JVal.str "Custom") ≠ .str "X" :=
  ⟨by decide, by decide, by decide, by decide, by decide, by decide⟩

/-- C4 (amended): the extractor returns the raw `folder.project.status`
unless that status reads `"Custom"` and the customStatusId is truthy
(present with a non-empty, non-zero value — not merely present); in that
case it returns the `name` field of the custom-statuses cache record
under that id, along with the state and requests of the (possibly
populating) cache access. -/
theorem extract_project_status_spec (f : Fetch) (w : Wrike)
    (folder : JVal) :
    (¬ (pyStr (Wrike.extract_project_value_from_folder "status" folder)
          = "Custom"
        ∧ truthy (Wrike.extract_project_value_from_folder
            "customStatusId" folder) = true) →
      Wrike.extract_project_status f w folder
        = (.ok (Wrike.extract_project_value_from_folder "status" folder),
           w, []))
  ∧ (∀ csd w1 t record nm,
      pyStr (Wrike.extract_project_value_from_folder "status" folder)
          = "Custom" →
      truthy (Wrike.extract_project_value_from_folder
          "customStatusId" folder) = true →
      Wrike.custom_statuses f w = (.ok csd, w1, t) →
      dictLookup csd
          (Wrike.extract_project_value_from_folder "customStatusId" folder)
        = some record →
      jIndex record "name" = .ok nm →
      Wrike.extract_project_status f w folder = (.ok nm, w1, t)) := by
  constructor
  · intro h
    simp only [Wrike.extract_project_status]
    rw [if_neg h]
  · intro csd w1 t record nm h1 h2 hcs hlk hnm
    simp only [Wrike.extract_project_status]
    rw [if_pos ⟨h1, h2⟩, hcs]
    dsimp only
    have hdg : dictGet csd
        (Wrike.extract_project_value_from_folder "customStatusId" folder)
        = .ok record := by
      unfold dictGet
      rw [hlk]
    rw [hdg]
    dsimp only
    rw [hnm]

/-- The client state after the custom-statuses cache has been derived from
the `fStd` workflow fixture. -/
def wAfterCS : Wrike :=
  { wNone with
    _custom_statuses := some [(.str "CS1", csBlocked)],
    _workflows := some [(.str "W1", wfMain)] }

/-- Witness for the amended C4: resolving `CS1` to `"Blocked"` through a
lazily populated cache. -/
theorem extract_project_status_spec_witness :
    Wrike.extract_project_status fStd wNone
        (.obj [("project", .obj [("status", .str "Custom"),
          ("customStatusId", .str "CS1")])])
      = (.ok (.str "Blocked"), wAfterCS, [⟨"workflows", none⟩]) :=
  (extract_project_status_spec fStd wNone
      (.obj [("project", .obj [("status", .str "Custom"),
        ("customStatusId", .str "CS1")])])).2
    [(.str "CS1", csBlocked)] wAfterCS
    [⟨"workflows", none⟩] csBlocked (.str "Blocked")
    (by decide) (by decide) (by decide) (by decide) (by decide)

/-- C6 is false as stated: with status `"Custom"`, a present (non-null)
empty-string customStatusId, and that id absent from the cache, the claim
demands a `KeyMissing` failure, but the source's truthiness guard skips
the lookup and successfully returns `"Custom"`. -/
theorem extract_status_key_missing_cex :
    Wrike.extract_project_value_from_folder "customStatusId" folderEmptyId
      = .str ""
  ∧ (JVal.str "") ≠ .null
  ∧ dictLookup csOther (.str "") = none
  ∧ Wrike.extract_project_status fBoom wCsOther folderEmptyId
      = (.ok (.str "Custom"), wCsOther, []) :=
  ⟨by decide, by decide, by decide, by decide⟩

/-- C6 (amended): when the custom-statuses cache access succeeds and every
cached record carries a `name` field, the extractor fails exactly when
the folder's status reads `"Custom"`, its customStatusId is truthy (not
merely present), and that id is not a key of the cache; in that case the
failure is `KeyError` at that id and no fallback value is produced. -/
theorem extract_project_status_key_missing (f : Fetch) (w : Wrike)
    (folder : JVal) (csd : PyDict) (w1 : Wrike) (t : List Request)
    (hcs : Wrike.custom_statuses f w = (.ok csd, w1, t))
    (hname : ∀ p ∈ csd, ∃ nm, jIndex p.2 "name" = .ok nm) :
    ((¬ ∃ v, (Wrike.extract_project_status f w folder).1 = .ok v) ↔
      (pyStr (Wrike.extract_project_value_from_folder "status" folder)
          = "Custom"
       ∧ truthy (Wrike.extract_project_value_from_folder
           "customStatusId" folder) = true
       ∧ dictLookup csd
           (Wrike.extract_project_value_from_folder "customStatusId" folder)
          = none))
  ∧ ((pyStr (Wrike.extract_project_value_from_folder "status" folder)
          = "Custom"
      ∧ truthy (Wrike.extract_project_value_from_folder
          "customStatusId" folder) = true
      ∧ dictLookup csd
          (Wrike.extract_project_value_from_folder "customStatusId" folder)
         = none) →
      (Wrike.extract_project_status f w folder).1
        = .error (.keyError (Wrike.extract_project_value_from_folder
            "customStatusId" folder))) := by
  by_cases hc :
      pyStr (Wrike.extract_project_value_from_folder "status" folder)
          = "Custom"
      ∧ truthy (Wrike.extract_project_value_from_folder
          "customStatusId" folder) = true
  · cases hlk : dictLookup csd
        (Wrike.extract_project_value_from_folder "customStatusId" folder)
      with
    | none =>
      have heq : (Wrike.extract_project_status f w folder).1
          = .error (.keyError (Wrike.extract_project_value_from_folder
              "customStatusId" folder)) := by
        simp only [Wrike.extract_project_status]
        rw [if_pos hc, hcs]
        dsimp only
        have hdg : dictGet csd
            (Wrike.extract_project_value_from_folder "customStatusId" folder)
            = .error (.keyError (Wrike.extract_project_value_from_folder
                "customStatusId" folder)) := by
          unfold dictGet
          rw [hlk]
        rw [hdg]
      refine ⟨⟨fun _ => ⟨hc.1, hc.2, rfl⟩, fun _ => ?_⟩, fun _ => heq⟩
      rintro ⟨v, hv⟩
      rw [heq] at hv
      exact Except.noConfusion hv
    | some record =>
      obtain ⟨nm, hnm⟩ := hname
        (Wrike.extract_project_value_from_folder "customStatusId" folder,
         record)
        (dictLookup_mem csd _ record hlk)
      have hnm2 : jIndex record "name" = .ok nm := hnm
      have heq : (Wrike.extract_project_status f w folder).1 = .ok nm := by
        simp only [Wrike.extract_project_status]
        rw [if_pos hc, hcs]
        dsimp only
        have hdg : dictGet csd
            (Wrike.extract_project_value_from_folder "customStatusId" folder)
            = .ok record := by
          unfold dictGet
          rw [hlk]
        rw [hdg]
        dsimp only
        rw [hnm2]
      constructor
      · constructor
        · intro hno
          exact absurd ⟨nm, heq⟩ hno
        · rintro ⟨_, _, h3⟩
          exact Option.noConfusion h3
      · rintro ⟨_, _, h3⟩
        exact Option.noConfusion h3
  · have heq : Wrike.extract_project_status f w folder
        = (.ok (Wrike.extract_project_value_from_folder "status" folder),
           w, []) := by
      simp only [Wrike.extract_project_status]
      rw [if_neg hc]
    constructor
    · constructor
      · intro hno
        refine absurd ⟨Wrike.extract_project_value_from_folder
          "status" folder, ?_⟩ hno
        rw [heq]
      · rintro ⟨h1, h2, _⟩
        exact absurd ⟨h1, h2⟩ hc
    · rintro ⟨h1, h2, _⟩
      exact absurd ⟨h1, h2⟩ hc

/-- Witness for the amended C6: a truthy id `CS9` absent from a populated
cache makes the extractor fail with `KeyError("CS9")`. -/
theorem extract_project_status_key_missing_witness :
    (Wrike.extract_project_status fBoom wCsOther
        (.obj [("project", .obj [("status", .str "Custom"),
          ("customStatusId", .str "CS9")])])).1
      = .error (.keyError (.str "CS9")) :=
  (extract_project_status_key_missing fBoom wCsOther
      (.obj [("project", .obj [("status", .str "Custom"),
        ("customStatusId", .str "CS9")])])
      csOther wCsOther [] (by decide)
      (fun p hp => by
        rcases List.mem_singleton.mp hp with h
        rw [h]
        exact ⟨.str "N", rfl⟩)).2
    ⟨by decide, by decide, by decide⟩


